/-
  Verification of the OCR extraction service (`app/` package):
  a shallow embedding, in Lean 4, of the extraction pipeline
  (`app/services/ocr_service.py`), the retention store
  (`app/services/file_service.py`) and the batch coordinator
  (`app/api/ocr_routes.py`), together with theorems settling the
  behavioural claims of the specification.

  External libraries (pypdfium2, PIL, pytesseract, python-docx, hashlib,
  the filesystem) are modelled as abstract parameters or as explicit
  state: the OCR engine is an arbitrary function `Img → String`,
  byte-level decoders are arbitrary fallible functions, and the upload
  directory is an association list keyed by file name.  Everything the
  repository's own code computes is translated faithfully, including
  the double-precision floating-point arithmetic of the image upscaling
  step, which is embedded exactly (round-to-nearest-even over exact
  natural-number fractions).
-/
import Mathlib

namespace OCRDeploy

/-! ### Response schemas (`app/models/schemas.py`) -/

/-- Model of `PageText`: one page of extracted text (`schemas.py`). -/
structure PageText where
  page_number : Nat
  text : String
deriving DecidableEq, Repr

/-- The metadata mapping built by `process_file` (`ocr_service.py`,
construction site of `OCRResponse.metadata`).  The Python code uses a
heterogeneous dict; the keys it actually stores are fixed, so we model
it as a record. -/
structure Metadata where
  file_name : String
  file_type : String
  num_pages : Nat
  processing_time_ms : Nat
  engine : String
  zero_retention : Bool
deriving DecidableEq, Repr

/-- Model of `OCRResponse` (`schemas.py`). -/
structure OCRResponse where
  job_id : String
  status : String
  document_type : String
  pages : List PageText
  full_text : String
  metadata : Metadata
deriving DecidableEq, Repr

/-- Model of `OCRBatchItem` (`schemas.py`): `skipped_duplicate` defaults to
`false`, the optional fields to `none`. -/
structure OCRBatchItem where
  filename : String
  file_hash : String
  skipped_duplicate : Bool := false
  reason : Option String := none
  response : Option OCRResponse := none
  error : Option String := none
deriving DecidableEq, Repr

/-- Model of `OCRBatchResponse` (`schemas.py`). -/
structure OCRBatchResponse where
  status : String
  document_type : String
  zero_retention : Bool
  max_docs_allowed : Nat
  results : List OCRBatchItem
deriving DecidableEq, Repr

/-! ### Python string primitives.  The Python code uses `str.strip()`,
`str.lower()` and `/`- and `.`-splitting; these are modelled by
structural functions over the character list (core `String.trim`,
`String.toLower` and `String.splitOn` are well-founded-recursion
definitions that a kernel-evaluated witness cannot reduce).  Unicode
corner cases (non-ASCII whitespace or case mappings) are outside the
behaviour any claim exercises. -/

/-- The whitespace set of `str.strip()` (ASCII fragment). -/
def pyWhitespace (c : Char) : Bool :=
  c == Char.ofNat 32 || c == Char.ofNat 9 || c == Char.ofNat 10 ||
  c == Char.ofNat 13 || c == Char.ofNat 11 || c == Char.ofNat 12

/-- Python `str.strip()`: drop leading and trailing whitespace. -/
def pyStrip (s : String) : String :=
  String.mk (((s.data.dropWhile pyWhitespace).reverse.dropWhile pyWhitespace).reverse)

/-- Python `str.lower()` on one character (ASCII fragment). -/
def pyLowerChar (c : Char) : Char :=
  if Char.ofNat 65 ≤ c && c ≤ Char.ofNat 90 then Char.ofNat (c.toNat + 32) else c

/-- Python `str.lower()` (ASCII fragment). -/
def pyLower (s : String) : String := String.mk (s.data.map pyLowerChar)

/-- Split a character list on a separator character; like Python
`str.split(sep)`, adjacent separators produce empty fields. -/
def splitOnChar (sep : Char) : List Char → List (List Char)
  | [] => [[]]
  | c :: rest =>
    match splitOnChar sep rest with
    | [] => [[c]]
    | h :: t => if c == sep then [] :: h :: t else (c :: h) :: t

/-- Python `s.split(sep)` for a one-character separator. -/
def pySplit (s : String) (sep : Char) : List String :=
  (splitOnChar sep s.data).map String.mk

/-! ### Boolean form-field parsing (`app/api/ocr_routes.py`, `parse_bool`) -/

/-- The permissive true-token set of `parse_bool` (`ocr_routes.py` line 22). -/
def trueTokens : List String := ["1", "true", "yes", "y", "on"]

/-- Model of `parse_bool(val, default)` (`ocr_routes.py` lines 18–22):
`None → default`; otherwise strip, lowercase and test membership in the
token set.  Note the code returns the membership test itself, not the
default, for an unrecognized token. -/
def parse_bool (val : Option String) (default : Bool) : Bool :=
  match val with
  | none => default
  | some s => trueTokens.contains (pyLower (pyStrip s))

/-! ### Filename sanitization (`app/services/file_service.py`) -/

/-- Python `pathlib.Path(filename).name`: the final path component.  pathlib
drops empty and `"."` components, so the name is the last component of
the `/`-split after removing those (`""` when none remain). -/
def pathName (s : String) : String :=
  ((pySplit s (Char.ofNat 47)).filter (fun c => !(c == "") && !(c == "."))).getLastD ""

/-- Characters in the regex class `[a-zA-Z0-9._ -]` of
`sanitize_filename` (`file_service.py` line 19). -/
def allowedChar (c : Char) : Bool :=
  (Char.ofNat 97 ≤ c && c ≤ Char.ofNat 122) ||
  (Char.ofNat 65 ≤ c && c ≤ Char.ofNat 90) ||
  (Char.ofNat 48 ≤ c && c ≤ Char.ofNat 57) ||
  c == Char.ofNat 46 || c == Char.ofNat 95 || c == Char.ofNat 32 || c == Char.ofNat 45

/-- The substitution `re.sub(r"[^a-zA-Z0-9._ -]+", "_", ·)` over a character list.  The
flag records whether we are inside a run of disallowed characters
(each maximal run emits a single underscore). -/
def reSub : List Char → Bool → List Char
  | [], _ => []
  | c :: rest, inRun =>
    if allowedChar c then c :: reSub rest false
    else if inRun then reSub rest true
    else Char.ofNat 95 :: reSub rest true

/-- Model of `sanitize_filename` (`file_service.py` lines 12–20): strip the
directory, apply the regex substitution, strip whitespace, and fall
back to `"document"` when empty. -/
def sanitize_filename (filename : String) : String :=
  let name := pathName filename
  let name2 := pyStrip (String.mk (reSub name.data false))
  if name2 = "" then "document" else name2

/-- The per-character substitution the specification describes for C7
("a run of k disallowed characters yields k underscores"), stated from
the spec's words for comparison against `sanitize_filename`. -/
def perCharSub (cs : List Char) : List Char :=
  cs.map (fun c => if allowedChar c then c else Char.ofNat 95)

/-- Filename sanitization as claim C7 literally describes it: strip
the directory, replace each disallowed character individually by an
underscore, fall back to the default when empty. -/
def sanitizeClaimC7 (filename : String) : String :=
  let name := pathName filename
  let n2 := String.mk (perCharSub name.data)
  if n2 = "" then "document" else n2

/-- Lemma: `dropWhile` never lengthens a list (termination measure for `runSub`). -/
theorem dropWhile_len_le {α : Type} (p : α → Bool) (l : List α) :
    (l.dropWhile p).length ≤ l.length := by
  induction l with
  | nil => simp [List.dropWhile]
  | cons c r ih =>
    simp only [List.dropWhile]
    split
    · exact Nat.le_succ_of_le ih
    · simp

/-- Run-wise substitution stated independently (for the amended C7):
an allowed character is kept; a maximal run of disallowed characters
is skipped as a whole and replaced by one underscore. -/
def runSub : List Char → List Char
  | [] => []
  | c :: rest =>
    if allowedChar c then c :: runSub rest
    else Char.ofNat 95 :: runSub (rest.dropWhile (fun d => !(allowedChar d)))
termination_by l => l.length
decreasing_by
  · exact Nat.lt_succ_self _
  · exact Nat.lt_of_le_of_lt (dropWhile_len_le _ _) (Nat.lt_succ_self _)

/-! ### Exact embedding of the Python float arithmetic in `ocr_image`
(`ocr_service.py` lines 49–53).  `scale = 1000 / max_side` and
`int(w * scale)` are IEEE-754 double operations; every value involved
is positive and normal, so each is an exact non-negative fraction
`m / 2^k` and the rounding (round to nearest, ties to even) is
computed exactly over natural-number fractions.  Cross-checked against
CPython: the modelled doubles agree bit-for-bit on the reachable
domain (`1 ≤ max_side ≤ 999`). -/

/-- Floor of the base-2 logarithm (structural, fuel = the number
itself; core `Nat.log2` is well-founded recursion and does not
kernel-reduce). -/
def log2fuel : Nat → Nat → Nat
  | 0, _ => 0
  | fuel + 1, n => if n < 2 then 0 else log2fuel fuel (n / 2) + 1

/-- Floor of the base-2 logarithm of a positive natural. -/
def natLog2 (n : Nat) : Nat := log2fuel n n

/-- Round the fraction `num / den` (with `den > 0`) to the nearest
natural, ties to even. -/
def rneFrac (num den : Nat) : Nat :=
  if 2 * (num % den) < den then num / den
  else if den < 2 * (num % den) then num / den + 1
  else if (num / den) % 2 = 0 then num / den else num / den + 1

/-- The IEEE-754 binary64 rounding of the fraction `num / den ≥ 1` in
the normal range, as a fraction `(m, 2^(52 - e))`: scale into
`[2^52, 2^53)` by the binade exponent `e`, round the significand to
the nearest integer, ties to even. -/
def flFrac (num den : Nat) : Nat × Nat :=
  (rneFrac (num * 2 ^ (52 - natLog2 (num / den))) den,
   2 ^ (52 - natLog2 (num / den)))

/-- The double `1000 / max_side` (`ocr_service.py` line 52), as an
exact fraction. -/
def pyScale (mx : Nat) : Nat × Nat := flFrac 1000 mx

/-- Model of `int(w * scale)` (`ocr_service.py` line 53): double multiply of the
exactly-representable integer `d` by the scale, truncated toward zero
(floor, as all values are positive). -/
def pyScaledDim (d mx : Nat) : Nat :=
  (flFrac (d * (pyScale mx).1) (pyScale mx).2).1 / (flFrac (d * (pyScale mx).1) (pyScale mx).2).2

/-! ### Image model.  PIL images are opaque apart from their pixel
dimensions; each PIL operation used by the code is a constructor, so
the content records exactly which operations were applied. -/

/-- Opaque image content: a free term algebra over the PIL operations
the service applies (`convert("L")`, `resize`, `autocontrast`,
`SHARPEN`) plus leaves for caller-supplied images and pdfium page
renders. -/
inductive ImgContent where
  | raw (id : Nat)
  | rendered (pageId : Nat) (scale : ℚ)
  | convertL (c : ImgContent)
  | resized (c : ImgContent) (w h : Nat)
  | autocontrast (c : ImgContent)
  | sharpen (c : ImgContent)
deriving DecidableEq, Repr

/-- A PIL image: pixel dimensions plus opaque content. -/
structure Img where
  w : Nat
  h : Nat
  content : ImgContent
deriving DecidableEq, Repr

/-- The preprocessing pipeline of `ocr_image` (`ocr_service.py` lines
47–56): grayscale; if the longer side is under 1000 px, resize both
axes by the double `1000 / max_side` with truncation; auto-contrast;
sharpen. -/
def preprocess (img : Img) : Img :=
  let g : Img := { img with content := ImgContent.convertL img.content }
  let mx := max g.w g.h
  let r : Img :=
    if mx < 1000 then
      { w := pyScaledDim g.w mx, h := pyScaledDim g.h mx,
        content := ImgContent.resized g.content (pyScaledDim g.w mx) (pyScaledDim g.h mx) }
    else g
  let a : Img := { r with content := ImgContent.autocontrast r.content }
  { a with content := ImgContent.sharpen a.content }

/-- Model of `ocr_image` (`ocr_service.py` lines 43–59): preprocess, hand to the
OCR engine `tess` (pytesseract, an abstract parameter here), strip the
result. -/
def ocr_image (tess : Img → String) (img : Img) : String :=
  pyStrip (tess (preprocess img))

/-! ### Retention store (`app/services/file_service.py`).  The upload
directory is an association list from file name to byte content;
writing a path replaces any entry under that name (filesystem paths are
unique), deleting removes it.  Whether a low-level write or unlink
raises (disk full, permissions) is an environment fact, modelled by a
`StoreWorld`. -/

/-- The on-disk state of the upload directory (bytes are lists of
naturals). -/
abbrev FS : Type := List (String × List Nat)

/-- Write `path` (replace any existing blob under the same name). -/
def fsSet (fs : FS) (k : String) (v : List Nat) : FS :=
  List.filter (fun e => !(e.1 == k)) fs ++ [(k, v)]

/-- Filesystem `unlink`: remove the blob under `k`, if any. -/
def fsRemove (fs : FS) (k : String) : FS :=
  List.filter (fun e => !(e.1 == k)) fs

/-- The content stored under `k`, if any. -/
def fsLookup (fs : FS) (k : String) : Option (List Nat) :=
  (List.find? (fun e => e.1 == k) fs).map (fun e => e.2)

/-- How many blobs exist under name `k`. -/
def countName (fs : FS) (k : String) : Nat :=
  (List.filter (fun e => e.1 == k) fs).length

/-- Environment outcomes for the store's raw filesystem calls:
`writeOk = false` means `path.write_bytes` raises, `deleteOk = false`
means `path.unlink` raises. -/
structure StoreWorld where
  writeOk : Bool
  deleteOk : Bool
deriving DecidableEq, Repr

/-- The world in which both filesystem calls succeed. -/
def allOk : StoreWorld := { writeOk := true, deleteOk := true }

/-- Model of `save_unique_by_name` (`file_service.py` lines 23–32): sanitize,
then `path.write_bytes` — overwriting any prior blob under the same
sanitized name.  A raising write is NOT caught: the exception
propagates to the caller (modelled as `.error`). -/
def save_unique_by_name (w : StoreWorld) (fs : FS) (filename : String)
    (file_bytes : List Nat) : Except String FS :=
  if w.writeOk then Except.ok (fsSet fs (sanitize_filename filename) file_bytes)
  else Except.error "store write failed"

/-- Model of `delete_if_exists` (`file_service.py` lines 35–41): sanitize, then
`path.unlink(missing_ok=True)` inside `try/except: pass` — it never
raises, and on a raising unlink the blob simply survives. -/
def delete_if_exists (w : StoreWorld) (fs : FS) (filename : String) : FS :=
  if w.deleteOk then fsRemove fs (sanitize_filename filename) else fs

/-! ### Format extraction (`app/services/ocr_service.py`).  pdfium,
PIL and python-docx parse raw bytes into documents; that parsing is
external, so the extractors here take the parsed document, and
`process_file` receives the byte-level decoders as abstract fallible
functions. -/

/-- One pdfium page: the embedded text layer (`none` when
`get_textpage`/`get_text_range` raises or yields nothing), and the
rasterisation `page.render(scale=·).to_pil()` as a function of the
scale. -/
structure PdfPage where
  textLayer : Option String
  renderImg : ℚ → Img

/-- The page used when indexing out of range (never reached). -/
def pdfDefaultPage : PdfPage :=
  { textLayer := none, renderImg := fun _ => { w := 0, h := 0, content := ImgContent.raw 0 } }

/-- The text-layer read of `extract_from_pdf` (`ocr_service.py` lines
72–77): `(textpage.get_text_range() or "").strip()`, with any
exception collapsing to `""`. -/
def pdfLayerText (p : PdfPage) : String :=
  match p.textLayer with
  | none => ""
  | some t => pyStrip t

/-- The per-page body of `extract_from_pdf` (`ocr_service.py` lines
72–84): use the stripped text layer if non-empty, else rasterize at
`scale = 300/72` and OCR. -/
def pdfPageText (tess : Img → String) (p : PdfPage) : String :=
  let text := pdfLayerText p
  if text = "" then ocr_image tess (p.renderImg (300 / 72)) else text

/-- Model of `extract_from_pdf` (`ocr_service.py` lines 62–88): for
`i in range(len(pdf))`, page number `i + 1`, text per `pdfPageText`. -/
def extract_from_pdf (tess : Img → String) (doc : List PdfPage) : List PageText :=
  (List.range doc.length).map
    (fun i => { page_number := i + 1, text := pdfPageText tess (doc.getD i pdfDefaultPage) })

/-- Model of `extract_from_image` (`ocr_service.py` lines 91–94), past the
external `Image.open`: one page, numbered 1, the OCR output. -/
def extract_from_image (tess : Img → String) (image : Img) : List PageText :=
  [{ page_number := 1, text := ocr_image tess image }]

/-- Model of `extract_from_docx` (`ocr_service.py` lines 97–101), past the
external `Document(...)` parse: keep paragraphs whose text is
non-empty after stripping, join the survivors' original text with a
newline, one page numbered 1. -/
def extract_from_docx (paragraphs : List String) : List PageText :=
  [{ page_number := 1,
     text := String.intercalate (String.mk [Char.ofNat 10])
       (paragraphs.filter (fun p => !(pyStrip p == ""))) }]

/-! ### The orchestrator `process_file` (`ocr_service.py` lines 104–159). -/

/-- The expression `filename.rsplit(".", 1)[-1].lower() if "." in filename else ""`
(`ocr_service.py` line 123). -/
def extOf (filename : String) : String :=
  let parts := pySplit filename (Char.ofNat 46)
  if parts.length ≤ 1 then "" else pyLower (parts.getLastD "")

/-- The raster-image extensions accepted by `process_file`
(`ocr_service.py` line 127). -/
def imageExts : List String := ["jpg", "jpeg", "png", "bmp", "tif", "tiff"]

/-- The byte-level decoders of the external parsing libraries
(pdfium's `PdfDocument`, PIL's `Image.open`, python-docx's
`Document`), each fallible on malformed bytes. -/
structure Decoders where
  pdf : List Nat → Except String (List PdfPage)
  img : List Nat → Except String Img
  docx : List Nat → Except String (List String)

/-- The two-newline join separator of `full_text`
(`ocr_service.py` line 134). -/
def sep2 : String := String.mk [Char.ofNat 10, Char.ofNat 10]

/-- The extension dispatch of `process_file` (`ocr_service.py` lines
125–132): choose the strategy, or raise `ValueError` for an
unrecognized extension, echoing the extension (or `"unknown"` when
empty). -/
def dispatchPages (D : Decoders) (tess : Img → String) (ext : String)
    (file_bytes : List Nat) : Except String (List PageText) :=
  if ext = "pdf" then (D.pdf file_bytes).map (extract_from_pdf tess)
  else if imageExts.contains ext then (D.img file_bytes).map (extract_from_image tess)
  else if ext = "docx" then (D.docx file_bytes).map extract_from_docx
  else Except.error ("Unsupported file type: ." ++ (if ext = "" then "unknown" else ext))

/-- The `OCRResponse` assembled by `process_file` (`ocr_service.py`
lines 134 and 145–159): `full_text` is the pages' text joined with
`"\n\n"`, and the metadata echoes the request facts. -/
def mkResponse (jobId document_type : String) (pages : List PageText)
    (filename ext : String) (elapsedMs : Nat) (zr : Bool) : OCRResponse :=
  { job_id := jobId, status := "success", document_type := document_type,
    pages := pages,
    full_text := String.intercalate sep2 (pages.map PageText.text),
    metadata :=
      { file_name := filename, file_type := ext, num_pages := pages.length,
        processing_time_ms := elapsedMs, engine := "tesseract",
        zero_retention := zr } }

/-- Model of `process_file` (`ocr_service.py` lines 104–159).  `jobId` stands
for the generated `uuid4` and `elapsedMs` for the wall-clock
measurement, both environment-supplied.  The result pairs the Python
return-or-raise outcome with the upload-directory state: on an
exception the directory holds whatever it held at the raise site
(nothing is ever changed before a raise).  Note the retention step:
with retention on (`zero_retention` false) the unguarded
`save_unique_by_name` runs, whose write failure propagates; with
zero-retention the self-guarding `delete_if_exists` runs. -/
def process_file (D : Decoders) (tess : Img → String) (w : StoreWorld)
    (fs : FS) (file_bytes : List Nat) (filename document_type : String)
    (zero_retention : Option Bool) (defaultZR : Bool)
    (jobId : String) (elapsedMs : Nat) : Except String OCRResponse × FS :=
  match dispatchPages D tess (extOf filename) file_bytes with
  | Except.error e => (Except.error e, fs)
  | Except.ok pages =>
    if zero_retention.getD defaultZR then
      (Except.ok (mkResponse jobId document_type pages filename (extOf filename) elapsedMs true),
       delete_if_exists w fs filename)
    else
      match save_unique_by_name w fs filename file_bytes with
      | Except.error e => (Except.error e, fs)
      | Except.ok fs2 =>
        (Except.ok (mkResponse jobId document_type pages filename (extOf filename) elapsedMs false),
         fs2)

/-- Equality of `Except` outcomes is decidable (needed so concrete
runs can be checked by evaluation). -/
instance {e a : Type} [DecidableEq e] [DecidableEq a] : DecidableEq (Except e a) :=
  fun x y =>
    match x, y with
    | Except.ok u, Except.ok v =>
      if h : u = v then Decidable.isTrue (by rw [h])
      else Decidable.isFalse (fun hc => h (Except.ok.inj hc))
    | Except.ok _, Except.error _ => Decidable.isFalse (fun hc => Except.noConfusion hc)
    | Except.error _, Except.ok _ => Decidable.isFalse (fun hc => Except.noConfusion hc)
    | Except.error u, Except.error v =>
      if h : u = v then Decidable.isTrue (by rw [h])
      else Decidable.isFalse (fun hc => h (Except.error.inj hc))

/-- Returns `true` exactly when the `Except` carries a value. -/
def exceptOk {α : Type} (e : Except String α) : Bool :=
  match e with
  | Except.ok _ => true
  | Except.error _ => false

/-! ### Batch coordinator (`app/api/ocr_routes.py`, `extract_batch`).
`hashlib.sha256(...).hexdigest()` is an external digest, modelled as an
abstract function on the bytes.  Upload read failures are outside the
modelled state; each file arrives as its byte content plus the
optional client-declared filename (`f.filename or "document"`). -/

/-- One uploaded file of a batch request. -/
structure BatchFile where
  filename : Option String
  contents : List Nat
deriving DecidableEq, Repr

/-- The per-file loop of `extract_batch` (`ocr_routes.py` lines
82–142), threading the two dedup sets, the accumulated items and the
upload-directory state.  `P` is the per-file orchestrator call
(`process_file` with the request's fixed arguments). -/
def batchLoop (P : String → List Nat → FS → Except String OCRResponse × FS)
    (hash : List Nat → String) (maxMB : Nat) :
    List BatchFile → List String → List String → List OCRBatchItem → FS →
      List OCRBatchItem × FS
  | [], _, _, acc, fs => (acc, fs)
  | f :: rest, names, hashes, acc, fs =>
    let filename := f.filename.getD "document"
    if f.contents.isEmpty then
      batchLoop P hash maxMB rest names hashes
        (acc ++ [{ filename := filename, file_hash := "", error := some "Empty file" }]) fs
    else if maxMB * 1024 * 1024 < f.contents.length then
      batchLoop P hash maxMB rest names hashes
        (acc ++ [{ filename := filename, file_hash := "",
                   error := some ("File exceeds max size of " ++ toString maxMB ++ " MB") }]) fs
    else if names.contains filename then
      batchLoop P hash maxMB rest names hashes
        (acc ++ [{ filename := filename, file_hash := "", skipped_duplicate := true,
                   reason := some "duplicate_filename_in_batch" }]) fs
    else
      let names2 := filename :: names
      let h := hash f.contents
      if hashes.contains h then
        batchLoop P hash maxMB rest names2 hashes
          (acc ++ [{ filename := filename, file_hash := h, skipped_duplicate := true,
                     reason := some "duplicate_content_in_batch" }]) fs
      else
        let hashes2 := h :: hashes
        match P filename f.contents fs with
        | (Except.ok resp, fs2) =>
          batchLoop P hash maxMB rest names2 hashes2
            (acc ++ [{ filename := filename, file_hash := h, skipped_duplicate := false,
                       response := some resp }]) fs2
        | (Except.error e, fs2) =>
          batchLoop P hash maxMB rest names2 hashes2
            (acc ++ [{ filename := filename, file_hash := "", error := some e }]) fs2

/-- Model of `extract_batch` (`ocr_routes.py` lines 55–150): parse the retention
override, reject the whole batch when over the ceiling, otherwise run
the loop and wrap the envelope. -/
def extract_batch (D : Decoders) (tess : Img → String) (w : StoreWorld)
    (hash : List Nat → String) (maxDocs maxMB : Nat)
    (document_type : String) (zero_retention : Option String) (defaultZR : Bool)
    (jobId : String) (elapsedMs : Nat)
    (files : List BatchFile) (fs : FS) : Except String (OCRBatchResponse × FS) :=
  if maxDocs < files.length then
    Except.error ("Too many files. Received " ++ toString files.length ++
      " but max allowed is " ++ toString maxDocs ++ ".")
  else
    Except.ok
      ({ status := "success", document_type := document_type,
         zero_retention := parse_bool zero_retention defaultZR,
         max_docs_allowed := maxDocs,
         results := (batchLoop
           (fun fn bs st => process_file D tess w st bs fn document_type
             (some (parse_bool zero_retention defaultZR)) defaultZR jobId elapsedMs)
           hash maxMB files [] [] [] fs).1 },
       (batchLoop
         (fun fn bs st => process_file D tess w st bs fn document_type
           (some (parse_bool zero_retention defaultZR)) defaultZR jobId elapsedMs)
         hash maxMB files [] [] [] fs).2)

/-- The per-file outcome of the orchestrator, independent of the
directory state (claim-side helper for C3). -/
def orchOutcome (D : Decoders) (tess : Img → String) (w : StoreWorld)
    (document_type : String) (zr : Bool) (defaultZR : Bool)
    (jobId : String) (elapsedMs : Nat)
    (fn : String) (bs : List Nat) : Except String OCRResponse :=
  (process_file D tess w [] bs fn document_type (some zr) defaultZR jobId elapsedMs).1

/-- The batch algorithm exactly as claim C3 words it, one item per
file in input order: empty bytes → error item; oversized bytes → error
item (neither registered in any dedup set); an already-seen filename →
skipped item with reason `"duplicate_filename_in_batch"`, no content
hash computed; an already-seen content hash → skipped item carrying
the shared hash; otherwise the file is extracted and an extraction
failure becomes an error item that leaves the remaining files to be
processed normally. -/
def claimItemsC3 (P : String → List Nat → Except String OCRResponse)
    (hash : List Nat → String) (maxMB : Nat) :
    List String → List String → List BatchFile → List OCRBatchItem
  | _, _, [] => []
  | names, hashes, f :: rest =>
    let filename := f.filename.getD "document"
    if f.contents.isEmpty then
      { filename := filename, file_hash := "", error := some "Empty file" }
        :: claimItemsC3 P hash maxMB names hashes rest
    else if maxMB * 1024 * 1024 < f.contents.length then
      { filename := filename, file_hash := "",
        error := some ("File exceeds max size of " ++ toString maxMB ++ " MB") }
        :: claimItemsC3 P hash maxMB names hashes rest
    else if names.contains filename then
      { filename := filename, file_hash := "", skipped_duplicate := true,
        reason := some "duplicate_filename_in_batch" }
        :: claimItemsC3 P hash maxMB names hashes rest
    else if hashes.contains (hash f.contents) then
      { filename := filename, file_hash := hash f.contents, skipped_duplicate := true,
        reason := some "duplicate_content_in_batch" }
        :: claimItemsC3 P hash maxMB (filename :: names) hashes rest
    else
      (match P filename f.contents with
       | Except.ok resp =>
         { filename := filename, file_hash := hash f.contents,
           skipped_duplicate := false, response := some resp }
       | Except.error e =>
         { filename := filename, file_hash := "", error := some e })
        :: claimItemsC3 P hash maxMB (filename :: names) (hash f.contents :: hashes) rest

/-! ### Concrete sample data for witness instantiations. -/

/-- A decoder assignment with a working DOCX parser (paragraphs
`["a", "b"]`) and failing PDF/image parsers. -/
def D0 : Decoders :=
  { pdf := fun _ => Except.error "bad pdf",
    img := fun _ => Except.error "bad image",
    docx := fun _ => Except.ok ["a", "b"] }

/-- A stub OCR engine. -/
def tess0 : Img → String := fun _ => " ocr out "

/-- A second, distinguishable stub OCR engine. -/
def tessB : Img → String := fun _ => "other engine"

/-- A stub pdfium page rasteriser. -/
def sampleRender : ℚ → Img :=
  fun q => { w := 100, h := 50, content := ImgContent.rendered 7 q }

/-- A two-page PDF: page 1 has a non-empty (untrimmed) text layer,
page 2 has none. -/
def samplePdf : List PdfPage :=
  [{ textLayer := some " hi ", renderImg := sampleRender },
   { textLayer := none, renderImg := sampleRender }]

/-- A stub content digest for batch runs. -/
def hashFn : List Nat → String := fun bs => toString bs

/-- A batch exercising name-duplicate, content-duplicate, empty-file
and unsupported-extension outcomes. -/
def sampleFiles : List BatchFile :=
  [{ filename := some "a.docx", contents := [1] },
   { filename := some "a.docx", contents := [2] },
   { filename := some "b.docx", contents := [1] },
   { filename := some "e.docx", contents := [] },
   { filename := some "bad.xyz", contents := [3] }]

/-- The response `process_file D0 tess0` produces for a DOCX file
named `"x.docx"` under zero-retention. -/
def rW : OCRResponse :=
  { job_id := "j", status := "success", document_type := "g",
    pages := [{ page_number := 1, text := "a\nb" }],
    full_text := "a\nb",
    metadata :=
      { file_name := "x.docx", file_type := "docx", num_pages := 1,
        processing_time_ms := 0, engine := "tesseract", zero_retention := true } }

/-! ### Helper lemmas -/

/-- Lemma: `reSub` in mid-run state equals a restart after skipping the rest
of the run. -/
theorem reSub_true_eq (l : List Char) :
    reSub l true = reSub (l.dropWhile (fun d => !(allowedChar d))) false := by
  induction l with
  | nil => rfl
  | cons c r ih =>
    by_cases hc : allowedChar c
    · simp [reSub, hc, List.dropWhile]
    · simp [reSub, hc, List.dropWhile, ih]

/-- The regex substitution is the run-wise substitution. -/
theorem reSub_eq_runSub (l : List Char) : reSub l false = runSub l := by
  have key : ∀ n (l : List Char), l.length ≤ n → reSub l false = runSub l := by
    intro n
    induction n with
    | zero =>
      intro l hl
      have : l = [] := List.length_eq_zero.mp (Nat.le_zero.mp hl)
      subst this
      simp [reSub, runSub]
    | succ n ih =>
      intro l hl
      cases l with
      | nil => simp [reSub, runSub]
      | cons c r =>
        by_cases hc : allowedChar c
        · rw [runSub]
          simp only [reSub, hc, if_true]
          rw [ih r (Nat.le_of_succ_le_succ hl)]
        · rw [runSub]
          simp only [reSub, hc, if_false, Bool.false_eq_true]
          rw [reSub_true_eq]
          rw [ih _ (Nat.le_trans (dropWhile_len_le _ _) (Nat.le_of_succ_le_succ hl))]
  exact key l.length l (Nat.le_refl _)

/-- Writing a name leaves exactly one blob under it. -/
theorem countName_fsSet (fs : FS) (k : String) (v : List Nat) :
    countName (fsSet fs k v) k = 1 := by
  induction fs with
  | nil => simp [countName, fsSet]
  | cons e r ih =>
    by_cases he : e.1 == k
    · simp [countName, fsSet, he, ih]
    · simp [countName, fsSet, he, ih]

/-- Writing a name stores exactly the written bytes under it. -/
theorem fsLookup_fsSet (fs : FS) (k : String) (v : List Nat) :
    fsLookup (fsSet fs k v) k = some v := by
  induction fs with
  | nil => simp [fsLookup, fsSet]
  | cons e r ih =>
    by_cases he : e.1 == k
    · simp [fsLookup, fsSet, he, ih]
    · simp [fsLookup, fsSet, List.find?, he, ih]

/-- Removing a name leaves no blob under it. -/
theorem countName_fsRemove (fs : FS) (k : String) :
    countName (fsRemove fs k) k = 0 := by
  induction fs with
  | nil => simp [countName, fsRemove]
  | cons e r ih =>
    by_cases he : e.1 == k
    · simp [countName, fsRemove, he, ih]
    · simp [countName, fsRemove, he, ih]

/-- Removal is idempotent. -/
theorem fsRemove_idem (fs : FS) (k : String) :
    fsRemove (fsRemove fs k) k = fsRemove fs k := by
  simp [fsRemove, List.filter_filter]

/-- Removing an absent name is the identity. -/
theorem fsRemove_absent (fs : FS) (k : String) (h : countName fs k = 0) :
    fsRemove fs k = fs := by
  induction fs with
  | nil => simp [fsRemove]
  | cons e r ih =>
    by_cases he : e.1 == k
    · simp [countName, he] at h
    · have hr : countName r k = 0 := by simpa [countName, List.filter_cons, he] using h
      rw [show fsRemove (e :: r) k = e :: fsRemove r k from by
            simp [fsRemove, List.filter_cons, he],
          ih hr]

/-- With retention on and both store calls healthy, a successful
`process_file` run writes the bytes under the sanitized name. -/
theorem process_file_store_write (D : Decoders) (tess : Img → String)
    (fs : FS) (b : List Nat) (fn dt : String) (dzr : Bool) (jid : String) (ems : Nat)
    (h : exceptOk (process_file D tess allOk fs b fn dt (some false) dzr jid ems).1 = true) :
    (process_file D tess allOk fs b fn dt (some false) dzr jid ems).2
      = fsSet fs (sanitize_filename fn) b := by
  unfold process_file at h ⊢
  cases hE : dispatchPages D tess (extOf fn) b with
  | error e => rw [hE] at h; simp [exceptOk] at h
  | ok pages => simp [save_unique_by_name, allOk]

/-- With zero-retention and both store calls healthy, a successful
`process_file` run deletes any blob under the sanitized name. -/
theorem process_file_store_delete (D : Decoders) (tess : Img → String)
    (fs : FS) (b : List Nat) (fn dt : String) (dzr : Bool) (jid : String) (ems : Nat)
    (h : exceptOk (process_file D tess allOk fs b fn dt (some true) dzr jid ems).1 = true) :
    (process_file D tess allOk fs b fn dt (some true) dzr jid ems).2
      = fsRemove fs (sanitize_filename fn) := by
  unfold process_file at h ⊢
  cases hE : dispatchPages D tess (extOf fn) b with
  | error e => rw [hE] at h; simp [exceptOk] at h
  | ok pages => simp [delete_if_exists, allOk]

/-- The returned-or-raised outcome of `process_file` does not depend on
the current state of the upload directory. -/
theorem process_file_fst_fs_irrel (D : Decoders) (tess : Img → String) (w : StoreWorld)
    (fs fs2 : FS) (b : List Nat) (fn dt : String) (zr : Option Bool) (dzr : Bool)
    (jid : String) (ems : Nat) :
    (process_file D tess w fs b fn dt zr dzr jid ems).1
      = (process_file D tess w fs2 b fn dt zr dzr jid ems).1 := by
  unfold process_file
  cases hE : dispatchPages D tess (extOf fn) b with
  | error e => rfl
  | ok pages =>
    by_cases hz : zr.getD dzr
    · simp [hz]
    · simp [hz, save_unique_by_name]
      by_cases hw : w.writeOk <;> simp [hw]

/-- The claim-side batch algorithm yields one item per input file. -/
theorem claimItemsC3_length (P : String → List Nat → Except String OCRResponse)
    (hash : List Nat → String) (maxMB : Nat) :
    ∀ (files : List BatchFile) (names hashes : List String),
      (claimItemsC3 P hash maxMB names hashes files).length = files.length := by
  intro files
  induction files with
  | nil => intro names hashes; rfl
  | cons f rest ih =>
    intro names hashes
    simp only [claimItemsC3]
    repeat' split
    all_goals simp [ih]

/-- The batch loop of the route computes exactly the claim-side items,
appended to its accumulator, whenever the per-file orchestrator's
outcome is state-independent. -/
theorem batchLoop_eq_claimItems
    (Pf : String → List Nat → FS → Except String OCRResponse × FS)
    (P : String → List Nat → Except String OCRResponse)
    (hash : List Nat → String) (maxMB : Nat)
    (hP : ∀ fn bs fs, (Pf fn bs fs).1 = P fn bs) :
    ∀ (files : List BatchFile) (names hashes : List String)
      (acc : List OCRBatchItem) (fs : FS),
      (batchLoop Pf hash maxMB files names hashes acc fs).1
        = acc ++ claimItemsC3 P hash maxMB names hashes files := by
  intro files
  induction files with
  | nil => intro names hashes acc fs; simp [batchLoop, claimItemsC3]
  | cons f rest ih =>
    intro names hashes acc fs
    simp only [batchLoop, claimItemsC3]
    by_cases h1 : f.contents.isEmpty
    · simp [h1, ih]
    · simp only [h1, if_false, Bool.false_eq_true]
      by_cases h2 : maxMB * 1024 * 1024 < f.contents.length
      · simp [h2, ih]
      · simp only [h2, if_false]
        by_cases h3 : f.filename.getD "document" ∈ names
        · simp [h3, ih]
        · by_cases h4 : hash f.contents ∈ hashes
          · simp [h3, h4, ih]
          · have hfst := hP (f.filename.getD "document") f.contents fs
            cases hq : Pf (f.filename.getD "document") f.contents fs with
            | mk outcome fs2 =>
              rw [hq] at hfst
              dsimp only at hfst
              cases outcome with
              | ok resp => simp [h3, h4, hq, ← hfst, ih]
              | error e => simp [h3, h4, hq, ← hfst, ih]

/-! ### Claim theorems -/

/-- Claim C6 as stated is false: for the present token `"no"` with
configured default `true`, `parse_bool` returns `false`, not the
configured default. -/
theorem parse_bool_claim_counterexample : ¬ (parse_bool (some "no") true = true) := by
  decide

/-- Claim C6 (amended): an absent token yields the configured default;
a present token in the permissive set (after trimming and lowercasing)
yields true; any other present token yields false — not the configured
default. -/
theorem parse_bool_amended (d : Bool) (v : String) :
    parse_bool none d = d ∧
    (trueTokens.contains (pyLower (pyStrip v)) = true → parse_bool (some v) d = true) ∧
    (trueTokens.contains (pyLower (pyStrip v)) = false → parse_bool (some v) d = false) := by
  refine ⟨rfl, ?_, ?_⟩ <;> intro h <;> simpa [parse_bool] using h

/-- Witness for the amended C6 at the tokens `" YES "` and `"no"`. -/
theorem parse_bool_amended_witness :
    parse_bool (some " YES ") false = true ∧ parse_bool (some "no") false = false :=
  ⟨(parse_bool_amended false " YES ").2.1 (by decide),
   (parse_bool_amended false "no").2.2 (by decide)⟩

/-- Claim C7 as stated is false: on `"a##b"` the code collapses the
run of two disallowed characters to a single underscore (`"a_b"`),
while the claim's per-character replacement predicts `"a__b"`. -/
theorem sanitize_claim_counterexample :
    sanitize_filename "a##b" = "a_b" ∧ sanitizeClaimC7 "a##b" = "a__b" ∧
    ¬ (sanitize_filename "a##b" = sanitizeClaimC7 "a##b") := by
  decide

/-- Claim C7 (amended): sanitization strips any directory component,
replaces every maximal run of disallowed characters with a single
underscore, trims surrounding whitespace, and falls back to
`"document"` when the result is empty. -/
theorem sanitize_filename_amended (fn : String) :
    sanitize_filename fn =
      (if pyStrip (String.mk (runSub (pathName fn).data)) = "" then "document"
       else pyStrip (String.mk (runSub (pathName fn).data))) := by
  simp only [sanitize_filename, reSub_eq_runSub]

/-- Claim C10: an image input yields exactly one page, numbered 1,
whose text is the OCR output; a DOCX input yields exactly one page,
numbered 1, whose text is the paragraphs in order with
empty-after-trim paragraphs dropped and the survivors joined by a
single newline. -/
theorem single_page_formats (tess : Img → String) (image : Img)
    (paragraphs : List String) :
    extract_from_image tess image = [{ page_number := 1, text := ocr_image tess image }] ∧
    (extract_from_docx paragraphs).length = 1 ∧
    ((extract_from_docx paragraphs).getD 0 { page_number := 0, text := "" }).page_number = 1 ∧
    ((extract_from_docx paragraphs).getD 0 { page_number := 0, text := "" }).text
      = String.intercalate (String.mk [Char.ofNat 10])
          (paragraphs.filter (fun p => !(pyStrip p == ""))) :=
  ⟨rfl, rfl, rfl, rfl⟩

/-- Claim C4 is right and the code is wrong: with a healthy store the
DOCX extraction succeeds, but the identical input fails outright when
only the store's write raises (retention on), because `process_file`
does not guard `save_unique_by_name`; the delete path (zero-retention)
is guarded and a raising unlink does not fail the extraction. -/
theorem store_write_failure_fails_extraction :
    exceptOk (process_file D0 tess0 allOk [] [1] "x.docx" "g"
      (some false) true "j" 0).1 = true ∧
    exceptOk (process_file D0 tess0 { writeOk := false, deleteOk := true } [] [1] "x.docx" "g"
      (some false) true "j" 0).1 = false ∧
    (process_file D0 tess0 { writeOk := false, deleteOk := true } [] [1] "x.docx" "g"
      (some false) true "j" 0).1 = Except.error "store write failed" ∧
    exceptOk (process_file D0 tess0 { writeOk := true, deleteOk := false } [] [1] "x.docx" "g"
      (some true) true "j" 0).1 = true := by
  decide

/-- Claim C9 as stated is false: a 19-by-19 image is below the
1000-pixel floor, yet the upscale produces 999 — not exactly 1000 —
because `int(19 * (1000/19))` truncates the double
`999.9999999999999`. -/
theorem upscale_claim_counterexample :
    (preprocess { w := 19, h := 19, content := ImgContent.raw 0 }).w = 999 ∧
    (preprocess { w := 19, h := 19, content := ImgContent.raw 0 }).h = 999 ∧
    ¬ (max (preprocess { w := 19, h := 19, content := ImgContent.raw 0 }).w
         (preprocess { w := 19, h := 19, content := ImgContent.raw 0 }).h = 1000) := by
  decide

set_option maxRecDepth 100000 in
/-- Claim C9 (amended): if the longer dimension is below 1000, both
axes are scaled by the same truncated double factor
`int(d * float(1000/max_side))` (isotropic up to integer truncation),
and the side that was the longer one becomes
`int(max_side * float(1000/max_side))` — which is 999 or 1000, not
always exactly 1000, because of floating-point rounding; if the longer
dimension is at least 1000, the resolution is left unchanged (never
downscaled). -/
theorem upscale_amended (img : Img) :
    (1000 ≤ max img.w img.h → (preprocess img).w = img.w ∧ (preprocess img).h = img.h) ∧
    (max img.w img.h < 1000 →
      (preprocess img).w = pyScaledDim img.w (max img.w img.h) ∧
      (preprocess img).h = pyScaledDim img.h (max img.w img.h) ∧
      (img.h ≤ img.w → (preprocess img).w = pyScaledDim (max img.w img.h) (max img.w img.h)) ∧
      (img.w ≤ img.h → (preprocess img).h = pyScaledDim (max img.w img.h) (max img.w img.h))) ∧
    (∀ mx, mx < 1000 → 0 < mx →
      999 ≤ pyScaledDim mx mx ∧ pyScaledDim mx mx ≤ 1000) := by
  refine ⟨?_, ?_, ?_⟩
  · intro hge
    simp [preprocess, Nat.not_lt.mpr hge]
  · intro hlt
    refine ⟨by simp [preprocess, hlt], by simp [preprocess, hlt], ?_, ?_⟩
    · intro hw
      have hwlt : img.w < 1000 := lt_of_le_of_lt (le_max_left _ _) hlt
      simp [preprocess, hlt, Nat.max_eq_left hw, hwlt]
    · intro hh
      have hhlt : img.h < 1000 := lt_of_le_of_lt (le_max_right _ _) hlt
      simp [preprocess, hlt, Nat.max_eq_right hh, hhlt]
  · decide

/-- Witness for the amended C9: a 500-by-250 image is upscaled to
1000-by-500; a 2000-by-100 image is left untouched. -/
theorem upscale_amended_witness :
    (preprocess { w := 500, h := 250, content := ImgContent.raw 0 }).w
      = pyScaledDim 500 (max 500 250) ∧
    (preprocess { w := 2000, h := 100, content := ImgContent.raw 1 }).w = 2000 ∧
    pyScaledDim 500 (max 500 250) = 1000 :=
  ⟨((upscale_amended { w := 500, h := 250, content := ImgContent.raw 0 }).2.1 (by decide)).1,
   ((upscale_amended { w := 2000, h := 100, content := ImgContent.raw 1 }).1 (by decide)).1,
   by decide⟩

/-- Claim C1: PDF extraction yields one page per source page, numbered
`1..N` in document order; per page, a text layer that is non-empty
after trimming becomes the page's text (the trimmed text, independent
of the OCR engine — OCR is not invoked), and otherwise the page's text
is the OCR of the page rasterized at scale `300/72`. -/
theorem extract_from_pdf_pages_spec (tess tess2 : Img → String)
    (doc : List PdfPage) (i : Nat) (h : i < doc.length) :
    (extract_from_pdf tess doc).length = doc.length ∧
    ((extract_from_pdf tess doc).getD i { page_number := 0, text := "" }).page_number = i + 1 ∧
    (pdfLayerText (doc.getD i pdfDefaultPage) ≠ "" →
      ((extract_from_pdf tess doc).getD i { page_number := 0, text := "" }).text
          = pdfLayerText (doc.getD i pdfDefaultPage) ∧
      (extract_from_pdf tess doc).getD i { page_number := 0, text := "" }
          = (extract_from_pdf tess2 doc).getD i { page_number := 0, text := "" }) ∧
    (pdfLayerText (doc.getD i pdfDefaultPage) = "" →
      ((extract_from_pdf tess doc).getD i { page_number := 0, text := "" }).text
          = ocr_image tess ((doc.getD i pdfDefaultPage).renderImg (300 / 72))) := by
  have hgd : ∀ (t : Img → String),
      (extract_from_pdf t doc).getD i { page_number := 0, text := "" }
        = { page_number := i + 1, text := pdfPageText t (doc.getD i pdfDefaultPage) } := by
    intro t
    simp [extract_from_pdf, List.getD, List.getElem?_map, List.getElem?_range, h]
  refine ⟨by simp [extract_from_pdf], by rw [hgd tess], ?_, ?_⟩
  · intro hne
    rw [hgd tess, hgd tess2]
    constructor
    · show pdfPageText tess (doc.getD i pdfDefaultPage) = _
      simp only [pdfPageText]
      rw [if_neg hne]
    · simp only [pdfPageText]
      simp only [if_neg hne]
  · intro he
    rw [hgd tess]
    show pdfPageText tess (doc.getD i pdfDefaultPage) = _
    simp only [pdfPageText]
    rw [if_pos he]

/-- Witness for C1 on a two-page sample PDF: page 1 takes its trimmed
text layer, page 2 (no layer) takes the OCR of its raster. -/
theorem extract_from_pdf_pages_witness :
    ((extract_from_pdf tess0 samplePdf).getD 0 { page_number := 0, text := "" }).text = "hi" ∧
    ((extract_from_pdf tess0 samplePdf).getD 1 { page_number := 0, text := "" }).text
      = ocr_image tess0 (sampleRender (300 / 72)) := by
  constructor
  · have h0 := ((extract_from_pdf_pages_spec tess0 tessB samplePdf 0 (by decide)).2.2.1
      (by decide)).1
    rw [h0]
    decide
  · have h1 := (extract_from_pdf_pages_spec tess0 tessB samplePdf 1 (by decide)).2.2.2
      (by decide)
    rw [h1]
    rfl

/-- Claim C2: every successful extraction's `full_text` equals its
pages' texts joined in page order with the two-newline separator. -/
theorem full_text_is_join (D : Decoders) (tess : Img → String) (w : StoreWorld)
    (fs : FS) (file_bytes : List Nat) (fn dt : String) (zr : Option Bool)
    (dzr : Bool) (jid : String) (ems : Nat) (r : OCRResponse) (fs2 : FS)
    (h : process_file D tess w fs file_bytes fn dt zr dzr jid ems = (Except.ok r, fs2)) :
    r.full_text = String.intercalate sep2 (r.pages.map PageText.text) := by
  unfold process_file at h
  cases hE : dispatchPages D tess (extOf fn) file_bytes with
  | error e => rw [hE] at h; simp at h
  | ok pages =>
    rw [hE] at h
    dsimp only at h
    by_cases hz : zr.getD dzr
    · rw [if_pos hz] at h
      have h1 : Except.ok (mkResponse jid dt pages fn (extOf fn) ems true)
          = Except.ok r := congrArg Prod.fst h
      have h2 : mkResponse jid dt pages fn (extOf fn) ems true = r := by
        injection h1
      rw [← h2]
      simp [mkResponse]
    · rw [if_neg hz] at h
      cases hs : save_unique_by_name w fs fn file_bytes with
      | error e => rw [hs] at h; simp at h
      | ok fs3 =>
        rw [hs] at h
        have h1 : Except.ok (mkResponse jid dt pages fn (extOf fn) ems false)
            = Except.ok r := congrArg Prod.fst h
        have h2 : mkResponse jid dt pages fn (extOf fn) ems false = r := by
          injection h1
        rw [← h2]
        simp [mkResponse]

/-- Witness for C2 on a concrete DOCX run. -/
theorem full_text_is_join_witness :
    rW.full_text = String.intercalate sep2 (rW.pages.map PageText.text) :=
  full_text_is_join D0 tess0 allOk [] [1] "x.docx" "g" (some true) true "j" 0 rW []
    (by decide)

/-- The extensions `process_file` recognizes (`ocr_service.py` lines
125–130). -/
def supportedExts : List String :=
  ["pdf", "jpg", "jpeg", "png", "bmp", "tif", "tiff", "docx"]

/-- Claim C8: for a filename whose (case-insensitively matched,
after-last-dot) extension is outside the supported set — or missing —
`process_file` fails with the unsupported-type error echoing the
extension (`"unknown"` when there is none), and the upload directory
is left exactly as it was: the store is neither written to nor deleted
from. -/
theorem unsupported_ext_no_store (D : Decoders) (tess : Img → String)
    (w : StoreWorld) (fs : FS) (file_bytes : List Nat) (fn dt : String)
    (zr : Option Bool) (dzr : Bool) (jid : String) (ems : Nat)
    (h : extOf fn ∉ supportedExts) :
    process_file D tess w fs file_bytes fn dt zr dzr jid ems
      = (Except.error ("Unsupported file type: ."
          ++ (if extOf fn = "" then "unknown" else extOf fn)), fs) := by
  simp only [supportedExts, List.mem_cons, List.not_mem_nil, or_false, not_or] at h
  obtain ⟨hp, hj, hje, hpn, hb, ht, htt, hd⟩ := h
  have himg : imageExts.contains (extOf fn) = false := by
    simp [imageExts, hj, hje, hpn, hb, ht, htt]
  unfold process_file dispatchPages
  rw [if_neg hp, himg]
  simp [hd]

/-- Witness for C8: a `.xyz` upload fails and an unrelated stored blob
survives untouched. -/
theorem unsupported_ext_no_store_witness :
    process_file D0 tess0 allOk [("k", [9])] [1] "a.xyz" "g" none true "j" 0
      = (Except.error ("Unsupported file type: ."
          ++ (if extOf "a.xyz" = "" then "unknown" else extOf "a.xyz")), [("k", [9])]) :=
  unsupported_ext_no_store D0 tess0 allOk [("k", [9])] [1] "a.xyz" "g" none true "j" 0
    (by decide)

/-- Claim C5: under a healthy store, after two retention-enabled runs
for the same filename exactly one blob exists under the sanitized name
and it holds the second run's bytes; a zero-retention run leaves zero
blobs under the name, deleting any pre-existing one; deletion is
idempotent, and a no-op when no blob exists. -/
theorem retention_at_most_one (D : Decoders) (tess : Img → String)
    (fs fs3 : FS) (b1 b2 b3 : List Nat) (fn dt : String) (dzr : Bool)
    (jid : String) (ems : Nat)
    (hfirst : exceptOk (process_file D tess allOk fs b1 fn dt (some false) dzr jid ems).1 = true)
    (h2 : exceptOk (process_file D tess allOk
            (process_file D tess allOk fs b1 fn dt (some false) dzr jid ems).2
            b2 fn dt (some false) dzr jid ems).1 = true) :
    countName (process_file D tess allOk
        (process_file D tess allOk fs b1 fn dt (some false) dzr jid ems).2
        b2 fn dt (some false) dzr jid ems).2 (sanitize_filename fn) = 1 ∧
    fsLookup (process_file D tess allOk
        (process_file D tess allOk fs b1 fn dt (some false) dzr jid ems).2
        b2 fn dt (some false) dzr jid ems).2 (sanitize_filename fn) = some b2 ∧
    (exceptOk (process_file D tess allOk fs3 b3 fn dt (some true) dzr jid ems).1 = true →
      countName (process_file D tess allOk fs3 b3 fn dt (some true) dzr jid ems).2
        (sanitize_filename fn) = 0) ∧
    delete_if_exists allOk (delete_if_exists allOk fs3 fn) fn
      = delete_if_exists allOk fs3 fn ∧
    (countName fs3 (sanitize_filename fn) = 0 → delete_if_exists allOk fs3 fn = fs3) := by
  have e2 := process_file_store_write D tess
    (process_file D tess allOk fs b1 fn dt (some false) dzr jid ems).2
    b2 fn dt dzr jid ems h2
  refine ⟨?_, ?_, ?_, ?_, ?_⟩
  · rw [e2]
    exact countName_fsSet _ _ _
  · rw [e2]
    exact fsLookup_fsSet _ _ _
  · intro h3
    rw [process_file_store_delete D tess fs3 b3 fn dt dzr jid ems h3]
    exact countName_fsRemove _ _
  · simp [delete_if_exists, allOk, fsRemove_idem]
  · intro h0
    simp [delete_if_exists, allOk, fsRemove_absent _ _ h0]

/-- Witness for C5: two concrete retention-enabled DOCX runs leave one
blob holding the second bytes. -/
theorem retention_at_most_one_witness :
    countName (process_file D0 tess0 allOk
        (process_file D0 tess0 allOk [] [1] "a.docx" "g" (some false) true "j" 0).2
        [2] "a.docx" "g" (some false) true "j" 0).2 (sanitize_filename "a.docx") = 1 ∧
    fsLookup (process_file D0 tess0 allOk
        (process_file D0 tess0 allOk [] [1] "a.docx" "g" (some false) true "j" 0).2
        [2] "a.docx" "g" (some false) true "j" 0).2 (sanitize_filename "a.docx")
      = some [2] :=
  ⟨(retention_at_most_one D0 tess0 [] [("a.docx", [9])] [1] [2] [3] "a.docx" "g" true
      "j" 0 (by decide) (by decide)).1,
   (retention_at_most_one D0 tess0 [] [("a.docx", [9])] [1] [2] [3] "a.docx" "g" true
      "j" 0 (by decide) (by decide)).2.1⟩

/-- Claim C3: a batch within the file-count ceiling succeeds and
returns exactly one item per input file, in input order, where the
items are computed by the claim's per-file algorithm (`claimItemsC3`,
which spells out the ordered empty/oversized/duplicate-name/
duplicate-content/extract cases with batch-scoped dedup sets and
per-file failure isolation). -/
theorem batch_one_item_per_file (D : Decoders) (tess : Img → String)
    (w : StoreWorld) (hash : List Nat → String) (maxDocs maxMB : Nat)
    (dt : String) (zr : Option String) (dzr : Bool) (jid : String) (ems : Nat)
    (files : List BatchFile) (fs : FS)
    (h : files.length ≤ maxDocs) :
    extract_batch D tess w hash maxDocs maxMB dt zr dzr jid ems files fs
      = Except.ok
          ({ status := "success", document_type := dt,
             zero_retention := parse_bool zr dzr, max_docs_allowed := maxDocs,
             results := claimItemsC3
               (orchOutcome D tess w dt (parse_bool zr dzr) dzr jid ems)
               hash maxMB [] [] files },
           (batchLoop
             (fun fn bs st => process_file D tess w st bs fn dt
               (some (parse_bool zr dzr)) dzr jid ems)
             hash maxMB files [] [] [] fs).2) ∧
    (claimItemsC3 (orchOutcome D tess w dt (parse_bool zr dzr) dzr jid ems)
       hash maxMB [] [] files).length = files.length := by
  constructor
  · have hloop := batchLoop_eq_claimItems
      (fun fn bs st => process_file D tess w st bs fn dt
        (some (parse_bool zr dzr)) dzr jid ems)
      (orchOutcome D tess w dt (parse_bool zr dzr) dzr jid ems)
      hash maxMB
      (fun fn bs st => process_file_fst_fs_irrel D tess w st [] bs fn dt
        (some (parse_bool zr dzr)) dzr jid ems)
      files [] [] [] fs
    unfold extract_batch
    rw [if_neg (Nat.not_lt.mpr h)]
    rw [show (batchLoop
        (fun fn bs st => process_file D tess w st bs fn dt
          (some (parse_bool zr dzr)) dzr jid ems)
        hash maxMB files [] [] [] fs).1
      = claimItemsC3 (orchOutcome D tess w dt (parse_bool zr dzr) dzr jid ems)
          hash maxMB [] [] files from by simpa using hloop]
  · exact claimItemsC3_length _ hash maxMB files [] []

/-- Witness for C3 on a five-file batch exercising the
duplicate-name, duplicate-content, empty-file and
unsupported-extension cases. -/
theorem batch_one_item_per_file_witness :
    extract_batch D0 tess0 allOk hashFn 20 1 "g" none true "j" 0 sampleFiles []
      = Except.ok
          ({ status := "success", document_type := "g",
             zero_retention := parse_bool none true, max_docs_allowed := 20,
             results := claimItemsC3
               (orchOutcome D0 tess0 allOk "g" (parse_bool none true) true "j" 0)
               hashFn 1 [] [] sampleFiles },
           (batchLoop
             (fun fn bs st => process_file D0 tess0 allOk st bs fn "g"
               (some (parse_bool none true)) true "j" 0)
             hashFn 1 sampleFiles [] [] [] []).2) ∧
    (claimItemsC3 (orchOutcome D0 tess0 allOk "g" (parse_bool none true) true "j" 0)
       hashFn 1 [] [] sampleFiles).length = sampleFiles.length :=
  batch_one_item_per_file D0 tess0 allOk hashFn 20 1 "g" none true "j" 0 sampleFiles []
    (by decide)

end OCRDeploy
